import Mathlib

/-!
Shallow embedding of `datacite/errors.py`.

The module maps HTTP response status codes to a hierarchy of typed errors.
We embed:
* Python attribute values as `PyVal` (the module only ever stores strings
  and, for the integer-code corner case, integers);
* the class hierarchy as the inductive `PyClass` together with the
  `superclass` chain read off the `class ... (Base):` lines of the source;
* a request object as its attribute dictionary: the attributes `code` and
  `data` (assumed set, per the module docstring) plus the remaining
  attribute entries `extra`; `Request.dict` is `request.__dict__`;
* `dict.copy()` / `dict.pop(key)` (no default, so a missing key raises
  `KeyError`) as pure operations on association lists, with `dictPop`
  returning `none` exactly when Python would raise `KeyError`;
* `DataCiteError.__init__` as `DataCiteError.construct`, returning
  `Except` (the `KeyError` path) of the constructed error object paired
  with the request state after construction, and recording in `logged`
  the payload handed to `logging.debug`;
* `DataCiteError.factory` as the lookup in the literal `error_mapping`
  dictionary followed by construction.
-/

namespace Datacite

/-- A Python attribute value as used by this module: a string, or an
integer (status codes may arrive as integers). -/
inductive PyVal where
  | str (s : String)
  | int (n : Int)
deriving DecidableEq, Repr

/-- Python `str()` on the values above, as used by `"{...}".format`. -/
def strOfPyVal : PyVal → String
  | PyVal.str s => s
  | PyVal.int n => toString n

/-- The classes declared in `errors.py` (plus the built-in `Exception`
root, named `PyException` here). -/
inductive PyClass where
  | PyException
  | HttpError
  | DataCiteError
  | DataCiteServerError
  | DataCiteRequestError
  | DataCiteNoContentError
  | DataCiteBadRequestError
  | DataCiteUnauthorizedError
  | DataCiteForbiddenError
  | DataCiteNotFoundError
  | DataCiteGoneError
  | DataCitePreconditionError
deriving DecidableEq, Repr

/-- The direct base class of each class, read off the source:
`HttpError(Exception)`, `DataCiteError(Exception)`,
`DataCiteServerError(DataCiteError)`, `DataCiteRequestError(DataCiteError)`,
and the seven concrete variants all extend `DataCiteRequestError`. -/
def superclass : PyClass → Option PyClass
  | PyClass.PyException => none
  | PyClass.HttpError => some PyClass.PyException
  | PyClass.DataCiteError => some PyClass.PyException
  | PyClass.DataCiteServerError => some PyClass.DataCiteError
  | PyClass.DataCiteRequestError => some PyClass.DataCiteError
  | PyClass.DataCiteNoContentError => some PyClass.DataCiteRequestError
  | PyClass.DataCiteBadRequestError => some PyClass.DataCiteRequestError
  | PyClass.DataCiteUnauthorizedError => some PyClass.DataCiteRequestError
  | PyClass.DataCiteForbiddenError => some PyClass.DataCiteRequestError
  | PyClass.DataCiteNotFoundError => some PyClass.DataCiteRequestError
  | PyClass.DataCiteGoneError => some PyClass.DataCiteRequestError
  | PyClass.DataCitePreconditionError => some PyClass.DataCiteRequestError

/-- The superclass chain of a class, fuelled (the hierarchy has depth at
most 3, so fuel 8 is ample). -/
def ancestorsAux : Nat → PyClass → List PyClass
  | 0, c => [c]
  | Nat.succ n, c =>
    match superclass c with
    | none => [c]
    | some p => c :: ancestorsAux n p

/-- All ancestors of a class, itself included. -/
def ancestors (c : PyClass) : List PyClass := ancestorsAux 8 c

/-- Python `issubclass(c, d)` for the hierarchy of this module. -/
def isSubclass (c d : PyClass) : Bool := (ancestors c).contains d

/-- A request object as consumed by `DataCiteError.factory`: its `code`
and `data` attributes (assumed set) and the rest of its attribute
dictionary. -/
structure Request where
  code : PyVal
  data : PyVal
  extra : List (String × PyVal)
deriving DecidableEq, Repr

/-- `request.__dict__`: every attribute of the request, `code` and `data`
included. -/
def Request.dict (r : Request) : List (String × PyVal) :=
  ("code", r.code) :: ("data", r.data) :: r.extra

/-- Python `d.pop(k)` with no default on a dictionary `d`: `none` models
the `KeyError` raised when `k` is absent, otherwise the dictionary
without the entry for `k`. -/
def dictPop (k : String) (d : List (String × PyVal)) :
    Option (List (String × PyVal)) :=
  match d.lookup k with
  | none => none
  | some _ => some (d.filter (fun p => p.1 != k))

/-- A constructed `DataCiteError` (or subclass) instance: its concrete
class, the message passed to `Exception.__init__`, the `error_code`
attribute, and the payload handed to `logging.debug`. -/
structure DataCiteErrorObj where
  variant : PyClass
  message : String
  error_code : PyVal
  logged : List (String × PyVal)
deriving DecidableEq, Repr

/-- `DataCiteError.__init__(self, request)`: formats the message
`"{request.code}: {request.data}"`, sets `error_code`, copies
`request.__dict__`, pops `"password"` from the copy (raising `KeyError`
when absent, modelled by `Except.error`), and logs the remainder.  The
returned pair carries the request state after construction (the copy is
popped; the request itself is never written). -/
def DataCiteError.construct (variant : PyClass) (request : Request) :
    Except String (DataCiteErrorObj × Request) :=
  match dictPop "password" (Request.dict request) with
  | none => Except.error "KeyError: password"
  | some info =>
      Except.ok
        ({ variant := variant,
           message := strOfPyVal request.code ++ ": " ++ strOfPyVal request.data,
           error_code := request.code,
           logged := info }, request)

/-- The literal `error_mapping` dictionary of `DataCiteError.factory`. -/
def error_mapping : List (String × PyClass) :=
  [("204", PyClass.DataCiteNoContentError),
   ("400", PyClass.DataCiteBadRequestError),
   ("401", PyClass.DataCiteUnauthorizedError),
   ("403", PyClass.DataCiteForbiddenError),
   ("404", PyClass.DataCiteNotFoundError),
   ("410", PyClass.DataCiteGoneError),
   ("412", PyClass.DataCitePreconditionError)]

/-- `error_mapping.get(error_code, DataCiteServerError)`: the dictionary
keys are strings, so an integer code never matches and falls through to
the default. -/
def mappingGet (code : PyVal) : PyClass :=
  match code with
  | PyVal.str s => (error_mapping.lookup s).getD PyClass.DataCiteServerError
  | PyVal.int _ => PyClass.DataCiteServerError

/-- `DataCiteError.factory(request)`: looks up the class for
`request.code` and constructs it on the request. -/
def DataCiteError.factory (request : Request) :
    Except String (DataCiteErrorObj × Request) :=
  DataCiteError.construct (mappingGet request.code) request

/-! ### Helper lemmas -/

/-- Filtering out every entry with key `k` leaves nothing for `lookup k`
to find. -/
theorem lookup_filter_ne (k : String) (l : List (String × PyVal)) :
    (l.filter (fun p => p.1 != k)).lookup k = none := by
  induction l with
  | nil => rfl
  | cons a t ih =>
      by_cases h : a.1 = k
      · simpa [List.filter_cons, h] using ih
      · have hb : (k == a.1) = false := beq_eq_false_iff_ne.mpr (Ne.symm h)
        simp [List.filter_cons, h, List.lookup, hb, ih]

/-- When the attribute dictionary has a `password` entry, the factory
succeeds and every field of the result is determined. -/
theorem factory_ok_of_password (r : Request)
    (hp : ((Request.dict r).lookup "password").isSome = true) :
    DataCiteError.factory r =
      Except.ok
        ({ variant := mappingGet r.code,
           message := strOfPyVal r.code ++ ": " ++ strOfPyVal r.data,
           error_code := r.code,
           logged := (Request.dict r).filter (fun p => p.1 != "password") }, r) := by
  obtain ⟨v, hv⟩ := Option.isSome_iff_exists.mp hp
  unfold DataCiteError.factory DataCiteError.construct dictPop
  rw [hv]

/-- When the attribute dictionary has no `password` entry, the factory
propagates the `KeyError` raised by `dict.pop`. -/
theorem factory_error_of_no_password (r : Request)
    (hp : (Request.dict r).lookup "password" = none) :
    DataCiteError.factory r = Except.error "KeyError: password" := by
  unfold DataCiteError.factory DataCiteError.construct dictPop
  rw [hp]

/-- Inversion: whatever the factory successfully returns has exactly the
fields computed by `__init__`, and the request is returned unchanged. -/
theorem factory_ok_elim (r : Request) (e : DataCiteErrorObj) (r2 : Request)
    (h : DataCiteError.factory r = Except.ok (e, r2)) :
    e.variant = mappingGet r.code ∧
    e.message = strOfPyVal r.code ++ ": " ++ strOfPyVal r.data ∧
    e.error_code = r.code ∧
    e.logged = (Request.dict r).filter (fun p => p.1 != "password") ∧
    r2 = r := by
  unfold DataCiteError.factory DataCiteError.construct dictPop at h
  cases hv : (Request.dict r).lookup "password" with
  | none => rw [hv] at h; exact absurd h (by simp)
  | some v =>
      rw [hv] at h
      have h2 := Except.ok.inj h
      have he : e = { variant := mappingGet r.code,
                      message := strOfPyVal r.code ++ ": " ++ strOfPyVal r.data,
                      error_code := r.code,
                      logged := (Request.dict r).filter (fun p => p.1 != "password") } :=
        (Prod.mk.injEq _ _ _ _ ▸ h2).1.symm
      have hr : r2 = r := ((Prod.mk.injEq _ _ _ _ ▸ h2).2).symm
      subst he
      exact ⟨rfl, rfl, rfl, rfl, hr⟩

/-- A string outside the seven literal keys finds nothing in
`error_mapping`. -/
theorem mapping_lookup_none (s : String)
    (h : s ∉ ["204", "400", "401", "403", "404", "410", "412"]) :
    error_mapping.lookup s = none := by
  simp only [List.mem_cons, List.not_mem_nil, or_false, not_or] at h
  obtain ⟨h1, h2, h3, h4, h5, h6, h7⟩ := h
  simp [error_mapping, List.lookup, beq_eq_false_iff_ne.mpr h1,
    beq_eq_false_iff_ne.mpr h2, beq_eq_false_iff_ne.mpr h3,
    beq_eq_false_iff_ne.mpr h4, beq_eq_false_iff_ne.mpr h5,
    beq_eq_false_iff_ne.mpr h6, beq_eq_false_iff_ne.mpr h7]

/-- Every class the mapping can select belongs to one of the two
families. -/
theorem mappingGet_family (code : PyVal) :
    (isSubclass (mappingGet code) PyClass.DataCiteRequestError ||
     isSubclass (mappingGet code) PyClass.DataCiteServerError) = true := by
  cases code with
  | int n => rfl
  | str s =>
      by_cases h : s ∈ ["204", "400", "401", "403", "404", "410", "412"]
      · simp only [List.mem_cons, List.not_mem_nil, or_false] at h
        rcases h with h | h | h | h | h | h | h <;> subst h <;> rfl
      · have hn := mapping_lookup_none s h
        simp only [mappingGet, hn, Option.getD_none]
        rfl

/-! ### Claim theorems -/

/-- Claim C1: for every request whose context contains a `password` key,
constructing any response-layer error removes the `password` entry from
the dictionary copy before the logging call, so the logged diagnostic
payload carries every other context field and never a `password` entry. -/
theorem C1_password_redacted (r : Request)
    (hp : ((Request.dict r).lookup "password").isSome = true) :
    ∃ e r2, DataCiteError.factory r = Except.ok (e, r2) ∧
      e.logged.lookup "password" = none ∧
      (∀ p ∈ Request.dict r, p.1 ≠ "password" → p ∈ e.logged) ∧
      (∀ p ∈ e.logged, p ∈ Request.dict r ∧ p.1 ≠ "password") := by
  refine ⟨_, _, factory_ok_of_password r hp, lookup_filter_ne _ _, ?_, ?_⟩
  · intro p hpmem hne
    exact List.mem_filter.mpr ⟨hpmem, by simpa using hne⟩
  · intro p hpmem
    have hm := List.mem_filter.mp hpmem
    exact ⟨hm.1, by simpa using hm.2⟩

def rC1 : Request :=
  { code := PyVal.str "404", data := PyVal.str "DOI not found",
    extra := [("password", PyVal.str "secret123"), ("user", PyVal.str "alice")] }

/-- Witness for C1: a concrete request carrying a password and a user. -/
theorem C1_password_redacted_witness :
    ((Request.dict rC1).lookup "password").isSome = true ∧
    (∃ e r2, DataCiteError.factory rC1 = Except.ok (e, r2) ∧
      e.logged.lookup "password" = none ∧
      (∀ p ∈ Request.dict rC1, p.1 ≠ "password" → p ∈ e.logged) ∧
      (∀ p ∈ e.logged, p ∈ Request.dict rC1 ∧ p.1 ≠ "password")) :=
  ⟨by decide, C1_password_redacted rC1 (by decide)⟩

/-- Claim C2: for every status code in the documented table, the factory
returns an instance of exactly the documented concrete variant, and each
of these variants is a subclass of `DataCiteRequestError`. -/
theorem C2_known_codes (r : Request) (c : String) (v : PyClass)
    (hmem : (c, v) ∈ [("204", PyClass.DataCiteNoContentError),
                      ("400", PyClass.DataCiteBadRequestError),
                      ("401", PyClass.DataCiteUnauthorizedError),
                      ("403", PyClass.DataCiteForbiddenError),
                      ("404", PyClass.DataCiteNotFoundError),
                      ("410", PyClass.DataCiteGoneError),
                      ("412", PyClass.DataCitePreconditionError)])
    (hcode : r.code = PyVal.str c)
    (hp : ((Request.dict r).lookup "password").isSome = true) :
    ∃ e r2, DataCiteError.factory r = Except.ok (e, r2) ∧ e.variant = v ∧
      isSubclass v PyClass.DataCiteRequestError = true := by
  simp only [List.mem_cons, List.not_mem_nil, or_false, Prod.mk.injEq] at hmem
  rcases hmem with ⟨hc, hv⟩ | ⟨hc, hv⟩ | ⟨hc, hv⟩ | ⟨hc, hv⟩ |
    ⟨hc, hv⟩ | ⟨hc, hv⟩ | ⟨hc, hv⟩ <;> subst hc <;> subst hv <;>
    exact ⟨_, _, factory_ok_of_password r hp,
      by show mappingGet r.code = _; rw [hcode]; rfl, rfl⟩

def rC2 : Request :=
  { code := PyVal.str "204", data := PyVal.str "no content",
    extra := [("password", PyVal.str "pw")] }

/-- Witness for C2: status code "204" yields `DataCiteNoContentError`. -/
theorem C2_known_codes_witness :
    rC2.code = PyVal.str "204" ∧
    ((Request.dict rC2).lookup "password").isSome = true ∧
    (∃ e r2, DataCiteError.factory rC2 = Except.ok (e, r2) ∧
      e.variant = PyClass.DataCiteNoContentError ∧
      isSubclass PyClass.DataCiteNoContentError PyClass.DataCiteRequestError = true) :=
  ⟨rfl, by decide, C2_known_codes rC2 "204" PyClass.DataCiteNoContentError
    (by decide) rfl (by decide)⟩

/-- Claim C3: for every status code not among the seven listed string
keys (any other string, or any non-string code), the factory returns the
default `DataCiteServerError` variant; no numeric range matching is
performed. -/
theorem C3_unknown_code_server_error (r : Request)
    (hp : ((Request.dict r).lookup "password").isSome = true)
    (hc : ∀ s : String, r.code = PyVal.str s →
      s ∉ ["204", "400", "401", "403", "404", "410", "412"]) :
    ∃ e r2, DataCiteError.factory r = Except.ok (e, r2) ∧
      e.variant = PyClass.DataCiteServerError := by
  refine ⟨_, _, factory_ok_of_password r hp, ?_⟩
  show mappingGet r.code = _
  cases hcode : r.code with
  | int n => rfl
  | str s =>
      simp only [mappingGet, mapping_lookup_none s (hc s hcode), Option.getD_none]

def rC3 : Request :=
  { code := PyVal.str "503", data := PyVal.str "overloaded",
    extra := [("password", PyVal.str "pw")] }

/-- Witness for C3: status code "503" is not in the table and yields the
default server variant. -/
theorem C3_unknown_code_server_error_witness :
    ((Request.dict rC3).lookup "password").isSome = true ∧
    (∀ s : String, rC3.code = PyVal.str s →
      s ∉ ["204", "400", "401", "403", "404", "410", "412"]) ∧
    (∃ e r2, DataCiteError.factory rC3 = Except.ok (e, r2) ∧
      e.variant = PyClass.DataCiteServerError) :=
  ⟨by decide, by intro s hs; cases hs; decide,
    C3_unknown_code_server_error rC3 (by decide)
      (by intro s hs; cases hs; decide)⟩

def rC4bad : Request :=
  { code := PyVal.str "404", data := PyVal.str "not found",
    extra := [("user", PyVal.str "alice")] }

/-- Counterexample to claim C4 as stated: at this concrete request whose
context has no `password` key, construction does fail — `dict.pop`
raises `KeyError` (modelled by `Except.error`) and nothing is logged,
rather than the removal being a silent no-op. -/
theorem C4_counterexample :
    (Request.dict rC4bad).lookup "password" = none ∧
    DataCiteError.factory rC4bad = Except.error "KeyError: password" :=
  ⟨rfl, rfl⟩

/-- Claim C4 (amended): if the request context has no `password` key,
constructing the error fails: `dict.pop("password")` raises `KeyError`,
so no error object is produced and nothing is logged. -/
theorem C4_missing_password_fails (r : Request)
    (hp : (Request.dict r).lookup "password" = none) :
    DataCiteError.factory r = Except.error "KeyError: password" :=
  factory_error_of_no_password r hp

def rC4 : Request :=
  { code := PyVal.str "410", data := PyVal.str "gone", extra := [] }

/-- Witness for the amended C4 at a concrete password-free request. -/
theorem C4_missing_password_fails_witness :
    (Request.dict rC4).lookup "password" = none ∧
    DataCiteError.factory rC4 = Except.error "KeyError: password" :=
  ⟨rfl, C4_missing_password_fails rC4 rfl⟩

/-- Claim C5: for every `(code, data)` pair carried by the request, the
constructed error's message is exactly `str(code) ++ ": " ++ str(data)`
with no additional formatting. -/
theorem C5_message_format (r : Request) (e : DataCiteErrorObj) (r2 : Request)
    (h : DataCiteError.factory r = Except.ok (e, r2)) :
    e.message = strOfPyVal r.code ++ ": " ++ strOfPyVal r.data :=
  (factory_ok_elim r e r2 h).2.1

def rC5 : Request :=
  { code := PyVal.str "404", data := PyVal.str "DOI not found",
    extra := [("password", PyVal.str "secret"), ("user", PyVal.str "alice")] }

def eC5 : DataCiteErrorObj :=
  { variant := PyClass.DataCiteNotFoundError,
    message := "404: DOI not found",
    error_code := PyVal.str "404",
    logged := [("code", PyVal.str "404"), ("data", PyVal.str "DOI not found"),
               ("user", PyVal.str "alice")] }

/-- Witness for C5: the concrete message is `"404: DOI not found"`. -/
theorem C5_message_format_witness :
    DataCiteError.factory rC5 = Except.ok (eC5, rC5) ∧
    eC5.message = strOfPyVal rC5.code ++ ": " ++ strOfPyVal rC5.data :=
  ⟨rfl, C5_message_format rC5 eC5 rC5 rfl⟩

/-- Claim C6: every error the factory produces has `error_code` equal to
the request's status code, and exactly one concrete variant is produced
per code input: any request with the same code yields the same variant. -/
theorem C6_error_code_invariant (r : Request) (e : DataCiteErrorObj) (r2 : Request)
    (h : DataCiteError.factory r = Except.ok (e, r2)) :
    e.error_code = r.code ∧
    ∀ (q : Request) (e2 : DataCiteErrorObj) (q2 : Request),
      q.code = r.code → DataCiteError.factory q = Except.ok (e2, q2) →
      e2.variant = e.variant := by
  refine ⟨(factory_ok_elim r e r2 h).2.2.1, ?_⟩
  intro q e2 q2 hq h2
  rw [(factory_ok_elim q e2 q2 h2).1, (factory_ok_elim r e r2 h).1, hq]

def rC6 : Request :=
  { code := PyVal.str "401", data := PyVal.str "denied",
    extra := [("password", PyVal.str "pw")] }

def eC6 : DataCiteErrorObj :=
  { variant := PyClass.DataCiteUnauthorizedError,
    message := "401: denied",
    error_code := PyVal.str "401",
    logged := [("code", PyVal.str "401"), ("data", PyVal.str "denied")] }

/-- Witness for C6 at a concrete "401" request. -/
theorem C6_error_code_invariant_witness :
    DataCiteError.factory rC6 = Except.ok (eC6, rC6) ∧
    (eC6.error_code = rC6.code ∧
      ∀ (q : Request) (e2 : DataCiteErrorObj) (q2 : Request),
        q.code = rC6.code → DataCiteError.factory q = Except.ok (e2, q2) →
        e2.variant = eC6.variant) :=
  ⟨rfl, C6_error_code_invariant rC6 eC6 rC6 rfl⟩

def rC7bad : Request :=
  { code := PyVal.str "500", data := PyVal.str "oops", extra := [] }

/-- Counterexample to claim C7 as stated: this request exposes `code` and
`data` attributes, yet the factory does not return a constructed error —
the shared constructor raises `KeyError` because the attribute dictionary
has no `password` entry. -/
theorem C7_counterexample :
    DataCiteError.factory rC7bad = Except.error "KeyError: password" := rfl

/-- Claim C7 (amended): for every request whose attribute dictionary also
contains a `password` key, the factory returns a fully-constructed error
value whose concrete variant is a subclass of `DataCiteRequestError` or
of `DataCiteServerError`. -/
theorem C7_factory_returns_family (r : Request)
    (hp : ((Request.dict r).lookup "password").isSome = true) :
    ∃ e r2, DataCiteError.factory r = Except.ok (e, r2) ∧
      (isSubclass e.variant PyClass.DataCiteRequestError = true ∨
       isSubclass e.variant PyClass.DataCiteServerError = true) := by
  refine ⟨_, _, factory_ok_of_password r hp, ?_⟩
  have hf := mappingGet_family r.code
  simpa [Bool.or_eq_true] using hf

def rC7 : Request :=
  { code := PyVal.str "500", data := PyVal.str "oops",
    extra := [("password", PyVal.str "pw")] }

/-- Witness for the amended C7 at a concrete "500" request. -/
theorem C7_factory_returns_family_witness :
    ((Request.dict rC7).lookup "password").isSome = true ∧
    (∃ e r2, DataCiteError.factory rC7 = Except.ok (e, r2) ∧
      (isSubclass e.variant PyClass.DataCiteRequestError = true ∨
       isSubclass e.variant PyClass.DataCiteServerError = true)) :=
  ⟨by decide, C7_factory_returns_family rC7 (by decide)⟩

/-- Claim C8: classification is deterministic: any two requests with
equal status codes are assigned the same concrete variant, independent of
the data field or any other context contents. -/
theorem C8_classification_deterministic (q1 q2 : Request)
    (e1 e2 : DataCiteErrorObj) (s1 s2 : Request)
    (hcode : q1.code = q2.code)
    (h1 : DataCiteError.factory q1 = Except.ok (e1, s1))
    (h2 : DataCiteError.factory q2 = Except.ok (e2, s2)) :
    e1.variant = e2.variant := by
  rw [(factory_ok_elim q1 e1 s1 h1).1, (factory_ok_elim q2 e2 s2 h2).1, hcode]

def rC8a : Request :=
  { code := PyVal.str "403", data := PyVal.str "quota exceeded",
    extra := [("password", PyVal.str "a")] }

def rC8b : Request :=
  { code := PyVal.str "403", data := PyVal.str "belongs to another party",
    extra := [("password", PyVal.str "b"), ("user", PyVal.str "bob")] }

def eC8a : DataCiteErrorObj :=
  { variant := PyClass.DataCiteForbiddenError,
    message := "403: quota exceeded",
    error_code := PyVal.str "403",
    logged := [("code", PyVal.str "403"), ("data", PyVal.str "quota exceeded")] }

def eC8b : DataCiteErrorObj :=
  { variant := PyClass.DataCiteForbiddenError,
    message := "403: belongs to another party",
    error_code := PyVal.str "403",
    logged := [("code", PyVal.str "403"),
               ("data", PyVal.str "belongs to another party"),
               ("user", PyVal.str "bob")] }

/-- Witness for C8: two concrete "403" requests with different data and
context receive the same variant. -/
theorem C8_classification_deterministic_witness :
    rC8a.code = rC8b.code ∧
    DataCiteError.factory rC8a = Except.ok (eC8a, rC8a) ∧
    DataCiteError.factory rC8b = Except.ok (eC8b, rC8b) ∧
    eC8a.variant = eC8b.variant :=
  ⟨rfl, rfl, rfl,
    C8_classification_deterministic rC8a rC8b eC8a eC8b rC8a rC8b rfl rfl rfl⟩

/-- Claim C9: constructing an error does not mutate the request: the
redaction pops a copy of the attribute dictionary, so the request state
returned after construction equals the input request and its `password`
entry is unchanged. -/
theorem C9_request_not_mutated (r : Request) (e : DataCiteErrorObj) (r2 : Request)
    (h : DataCiteError.factory r = Except.ok (e, r2)) :
    r2 = r ∧
    (Request.dict r2).lookup "password" = (Request.dict r).lookup "password" := by
  have hr := (factory_ok_elim r e r2 h).2.2.2.2
  exact ⟨hr, by rw [hr]⟩

def rC9 : Request :=
  { code := PyVal.str "412", data := PyVal.str "metadata missing",
    extra := [("password", PyVal.str "secret123")] }

def eC9 : DataCiteErrorObj :=
  { variant := PyClass.DataCitePreconditionError,
    message := "412: metadata missing",
    error_code := PyVal.str "412",
    logged := [("code", PyVal.str "412"), ("data", PyVal.str "metadata missing")] }

/-- Witness for C9 at a concrete "412" request with a password. -/
theorem C9_request_not_mutated_witness :
    DataCiteError.factory rC9 = Except.ok (eC9, rC9) ∧
    (rC9 = rC9 ∧
      (Request.dict rC9).lookup "password" = (Request.dict rC9).lookup "password") :=
  ⟨rfl, C9_request_not_mutated rC9 eC9 rC9 rfl⟩

/-- Claim C10: a request whose code attribute is an integer (e.g. 404
rather than "404") matches no string key of the table, so the factory
returns the default `DataCiteServerError` variant. -/
theorem C10_integer_code_server_error (r : Request) (n : Int)
    (hcode : r.code = PyVal.int n)
    (hp : ((Request.dict r).lookup "password").isSome = true) :
    ∃ e r2, DataCiteError.factory r = Except.ok (e, r2) ∧
      e.variant = PyClass.DataCiteServerError := by
  refine ⟨_, _, factory_ok_of_password r hp, ?_⟩
  show mappingGet r.code = _
  rw [hcode]
  rfl

def rC10 : Request :=
  { code := PyVal.int 404, data := PyVal.str "x",
    extra := [("password", PyVal.str "pw")] }

/-- Witness for C10: integer code 404 falls through to the server
variant. -/
theorem C10_integer_code_server_error_witness :
    rC10.code = PyVal.int 404 ∧
    ((Request.dict rC10).lookup "password").isSome = true ∧
    (∃ e r2, DataCiteError.factory rC10 = Except.ok (e, r2) ∧
      e.variant = PyClass.DataCiteServerError) :=
  ⟨rfl, by decide, C10_integer_code_server_error rC10 404 rfl (by decide)⟩

end Datacite
